import Mathlib

/-!
# Shallow embedding of the Galaxy Watch local data sync server

This file embeds the sync core of the repository in Lean 4:

* `src/server/utils/validation` (bundled at the end of `logger.js`):
  `validateHealthData`, `validateValueByType`, `validateGPSCoordinate`,
  `sanitizeHealthData`, `sanitizeString`, `validateSyncParams`;
* `src/server/config/config.js`: the numeric validation/sync configuration;
* `src/server/routes/healthData.js`: the `POST /api/v1/health-data` handler
  with its helpers `ensureDeviceExists`, `insertHealthRecords`,
  `updateDeviceLastSync`;
* the sync router (`sync.js`, second half of `src/unnamed/part_002`):
  `GET /data/:deviceId`, `PUT /timestamp/:deviceId`, `POST /complete`.

JavaScript values appearing in the modelled record fields are embedded by
`JVal` (a number, a string, or `undefined`); `none` of an `Option` models
`null`/`NaN`/absence where the field is a parse result.  Numbers are embedded
as rationals: all comparisons performed by the modelled code are exact at
rational inputs, so no floating-point rounding is involved in any claim.
The SQLite store is embedded as in-memory lists of rows; each route handler
becomes a pure function from a server state (plus the wall clock `now` and,
for ingestion, a storage-success oracle for the per-record `INSERT`) to a
new state and a response.
-/

namespace GalaxySync

/-- A JavaScript value in the positions the modelled code reads: a (finite)
number, a string, or `undefined`.  `NaN` never appears as a field value in
the modelled requests; parse results that can be `NaN` are `Option`s. -/
inductive JVal where
  | num (q : ℚ)
  | str (s : String)
  | undef
deriving Repr, DecidableEq

/-- JavaScript truthiness of a `JVal`: `0`, `""` and `undefined` are falsy. -/
def JVal.truthy : JVal → Bool
  | .num q => q ≠ 0
  | .str s => s ≠ ""
  | .undef => false

/-- Digit run to a natural number, as consumed left to right. -/
def digitsVal (cs : List Char) : ℕ :=
  cs.foldl (fun acc c => acc * 10 + (c.toNat - 48)) 0

/-- JavaScript `parseInt` on a string: skip leading whitespace, optional
sign, then a maximal run of decimal digits; `none` models `NaN` (no digit).
Radix prefixes and exponent forms are outside the modelled input space. -/
def parseIntString (s : String) : Option ℤ :=
  let cs := s.data.dropWhile Char.isWhitespace
  let signed : ℤ × List Char :=
    match cs with
    | '-' :: rest => (-1, rest)
    | '+' :: rest => (1, rest)
    | _ => (1, cs)
  let ds := signed.2.takeWhile Char.isDigit
  if ds.isEmpty then none else some (signed.1 * digitsVal ds)

/-- JavaScript `parseFloat` on a string: skip leading whitespace, optional
sign, integer digits, optional `.` and fraction digits; `none` models `NaN`.
Exponent forms are outside the modelled input space. -/
def parseFloatString (s : String) : Option ℚ :=
  let cs := s.data.dropWhile Char.isWhitespace
  let signed : ℚ × List Char :=
    match cs with
    | '-' :: rest => (-1, rest)
    | '+' :: rest => (1, rest)
    | _ => (1, cs)
  let ds := signed.2.takeWhile Char.isDigit
  let rest := signed.2.drop ds.length
  let fs :=
    match rest with
    | '.' :: r => r.takeWhile Char.isDigit
    | _ => []
  if ds.isEmpty && fs.isEmpty then none
  else some (signed.1 * ((digitsVal ds : ℚ) + (digitsVal fs : ℚ) / 10 ^ fs.length))

/-- Truncation toward zero, as JavaScript `parseInt` applied to a number
renders the integral part of its decimal form. -/
def jsTrunc (q : ℚ) : ℤ := if 0 ≤ q then ⌊q⌋ else ⌈q⌉

/-- `parseInt(v)` for a `JVal`; `none` models `NaN`. -/
def parseIntJ : JVal → Option ℤ
  | .num q => some (jsTrunc q)
  | .str s => parseIntString s
  | .undef => none

/-- `parseFloat(v)` for a `JVal`; `none` models `NaN`. -/
def parseFloatJ : JVal → Option ℚ
  | .num q => some q
  | .str s => parseFloatString s
  | .undef => none

/-! ## Configuration (`src/server/config/config.js`) -/

namespace Config

/-- `config.sync.maxBatchSize`. -/
def maxBatchSize : ℕ := 1000

/-- `config.healthData.supportedTypes`. -/
def supportedTypes : List String :=
  ["heart_rate", "steps", "sleep", "activity", "workout", "blood_pressure",
   "blood_oxygen", "body_temperature", "gps_route", "calories_burned",
   "distance", "floors_climbed"]

/-- `config.healthData.maxRecordAge` (90 days in milliseconds). -/
def maxRecordAge : ℤ := 90 * 24 * 60 * 60 * 1000

/-- `config.healthData.validation.heartRate.min`. -/
def heartRateMin : ℚ := 30

/-- `config.healthData.validation.heartRate.max`. -/
def heartRateMax : ℚ := 220

/-- `config.healthData.validation.steps.min`. -/
def stepsMin : ℚ := 0

/-- `config.healthData.validation.steps.max`. -/
def stepsMax : ℚ := 100000

/-- `config.healthData.validation.bloodPressure.systolic`. -/
def systolicMin : ℚ := 70

/-- `config.healthData.validation.bloodPressure.systolic.max`. -/
def systolicMax : ℚ := 250

/-- `config.healthData.validation.bloodPressure.diastolic.min`. -/
def diastolicMin : ℚ := 40

/-- `config.healthData.validation.bloodPressure.diastolic.max`. -/
def diastolicMax : ℚ := 150

/-- `config.healthData.validation.bloodOxygen`. -/
def bloodOxygenMin : ℚ := 70

/-- `config.healthData.validation.bloodOxygen.max`. -/
def bloodOxygenMax : ℚ := 100

/-- `config.healthData.validation.bodyTemperature.min` (Celsius). -/
def bodyTemperatureMin : ℚ := 35

/-- `config.healthData.validation.bodyTemperature.max` (Celsius). -/
def bodyTemperatureMax : ℚ := 42

end Config

/-! ## Validation (`validation.js`) -/

/-- A GPS coordinate object as read by `validateGPSCoordinate`
(`coord.latitude`, `coord.longitude`). -/
structure JCoord where
  latitude : JVal
  longitude : JVal
deriving Repr, DecidableEq

/-- The metadata fields the validator reads: `metadata.systolic`,
`metadata.diastolic` (blood pressure) and `metadata.coordinates`
(GPS routes; `none` models an absent or non-array field). -/
structure JMeta where
  systolic : JVal
  diastolic : JVal
  coordinates : Option (List JCoord)
deriving Repr, DecidableEq

/-- The `{}` default for the `metadata` parameter of `validateValueByType`. -/
def JMeta.empty : JMeta := ⟨.undef, .undef, none⟩

/-- A raw record of an ingestion batch, with the fields the pipeline reads. -/
structure JRecord where
  timestamp : JVal
  value : JVal
  unit : JVal
  metadata : Option JMeta
  sourceApp : JVal
deriving Repr, DecidableEq

/-- Result shape `{isValid, error}` returned by the validators. -/
structure ValidationResult where
  isValid : Bool
  error : Option String
deriving Repr, DecidableEq

/-- `{ isValid: true }`. -/
def vOk : ValidationResult := ⟨true, none⟩

/-- `{ isValid: false, error }`. -/
def vErr (msg : String) : ValidationResult := ⟨false, some msg⟩

/-- `isNaN(v) || v < lo || v > hi`, the failure pattern of every numeric
range check in `validateValueByType` (`none` plays `NaN`). -/
def outOfRange (v : Option ℚ) (lo hi : ℚ) : Bool :=
  match v with
  | none => true
  | some q => q < lo || q > hi

/-- `validateGPSCoordinate(coord)`: latitude and longitude must parse and lie
in [-90, 90] and [-180, 180].  The source's guard for a non-object element is
handled by construction (`JCoord` is always an object). -/
def validateGPSCoordinate (coord : JCoord) : Bool :=
  match parseFloatJ coord.latitude, parseFloatJ coord.longitude with
  | some lat, some lng =>
      !(lat < -90 || lat > 90) && !(lng < -180 || lng > 180)
  | _, _ => false

/-- `validateValueByType(dataType, value, metadata = {})`: the per-type
`switch` over domain bounds. -/
def validateValueByType (dataType : String) (value : JVal) (metadata : JMeta) :
    ValidationResult :=
  let numValue := parseFloatJ value
  match dataType with
  | "heart_rate" =>
      if outOfRange numValue Config.heartRateMin Config.heartRateMax then
        vErr "Heart rate must be between 30 and 220 bpm"
      else vOk
  | "steps" =>
      if outOfRange numValue Config.stepsMin Config.stepsMax then
        vErr "Steps must be between 0 and 100000"
      else vOk
  | "blood_pressure" =>
      if !metadata.systolic.truthy || !metadata.diastolic.truthy then
        vErr "Blood pressure requires systolic and diastolic values in metadata"
      else if outOfRange (parseFloatJ metadata.systolic)
          Config.systolicMin Config.systolicMax then
        vErr "Systolic pressure must be between 70 and 250 mmHg"
      else if outOfRange (parseFloatJ metadata.diastolic)
          Config.diastolicMin Config.diastolicMax then
        vErr "Diastolic pressure must be between 40 and 150 mmHg"
      else vOk
  | "blood_oxygen" =>
      if outOfRange numValue Config.bloodOxygenMin Config.bloodOxygenMax then
        vErr "Blood oxygen must be between 70% and 100%"
      else vOk
  | "body_temperature" =>
      if outOfRange numValue Config.bodyTemperatureMin Config.bodyTemperatureMax then
        vErr "Body temperature must be between 35°C and 42°C"
      else vOk
  | "sleep" =>
      if outOfRange numValue 0 (24 * 60) then
        vErr "Sleep duration must be between 0 and 1440 minutes (24 hours)"
      else vOk
  | "activity" =>
      if outOfRange numValue 0 (12 * 60) then
        vErr "Activity duration must be between 0 and 720 minutes (12 hours)"
      else vOk
  | "workout" =>
      if outOfRange numValue 0 (12 * 60) then
        vErr "Activity duration must be between 0 and 720 minutes (12 hours)"
      else vOk
  | "calories_burned" =>
      if outOfRange numValue 0 10000 then
        vErr "Calories burned must be between 0 and 10000"
      else vOk
  | "distance" =>
      if outOfRange numValue 0 1000000 then
        vErr "Distance must be between 0 and 1000000 meters"
      else vOk
  | "floors_climbed" =>
      if outOfRange numValue 0 1000 then
        vErr "Floors climbed must be between 0 and 1000"
      else vOk
  | "gps_route" =>
      if outOfRange numValue 0 50000 then
        vErr "GPS route points must be between 0 and 50000"
      else
        match metadata.coordinates with
        | some coords =>
            if coords.all validateGPSCoordinate then vOk
            else vErr "Invalid GPS coordinates in metadata"
        | none => vOk
  | _ =>
      if (numValue).isNone then vErr "Value must be a valid number" else vOk

/-- The future-timestamp grace period: 5 minutes in milliseconds. -/
def gracePeriodMs : ℤ := 5 * 60 * 1000

/-- `validateHealthData(dataType, record)` at wall clock `now`:
required-fields (truthiness) check, timestamp parse and sign check,
max-age check, future-grace check, then the per-type value check. -/
def validateHealthData (dataType : String) (record : JRecord) (now : ℤ) :
    ValidationResult :=
  if !record.timestamp.truthy || !record.value.truthy then
    vErr "Missing required fields: timestamp and value"
  else
    match parseIntJ record.timestamp with
    | none => vErr "Invalid timestamp"
    | some ts =>
      if ts < 0 then vErr "Invalid timestamp"
      else if now - ts > Config.maxRecordAge then
        vErr "Record too old (max age: 7776000000ms)"
      else if ts > now + gracePeriodMs then
        vErr "Timestamp cannot be in the future"
      else validateValueByType dataType record.value (record.metadata.getD JMeta.empty)

/-! ## Sanitization (`validation.js`) -/

/-- The characters removed by `sanitizeString`'s
`replace(/[<>\x22\x27&]/g, '')` (HTML/XML-significant characters). -/
def harmfulChar (c : Char) : Bool :=
  c = '<' || c = '>' || c = '"' || c = '\'' || c = '&'

/-- Whitespace as stripped by JavaScript `String.prototype.trim` — restricted
to the ASCII space classes; the exotic Unicode space code points also trimmed
by JavaScript do not occur in the modelled inputs. -/
def jsSpace (c : Char) : Bool :=
  c = ' ' || c = '\t' || c = '\n' || c = '\r' || c = '\x0b' || c = '\x0c'

/-- `trim()` on a character list: drop `jsSpace` from both ends. -/
def trimChars (cs : List Char) : List Char :=
  ((cs.dropWhile jsSpace).reverse.dropWhile jsSpace).reverse

/-- `sanitizeString` on the character list of a string: remove harmful
characters, trim, then `substring(0, 255)`. -/
def sanitizeChars (cs : List Char) : List Char :=
  (trimChars (cs.filter (fun c => !harmfulChar c))).take 255

/-- `sanitizeString(str)` on the string path (`typeof str === 'string'`). -/
def sanitizeString (s : String) : String :=
  ⟨sanitizeChars s.data⟩

/-- `sanitizeString` lifted to a `JVal` field: non-strings give `null`
(modelled `none`). -/
def sanitizeStringJ : JVal → Option String
  | .str s => some (sanitizeString s)
  | _ => none

/-- The record produced by `sanitizeHealthData`: parsed timestamp and value
(`none` models `NaN`), sanitized free-text fields, metadata carried through.
`sanitizeMetadata` on the fixed-field `JMeta` shape keeps the numeric
`systolic`/`diastolic` fields and the object elements of `coordinates`,
which is the identity on `JMeta`; its key filtering concerns only open-keyed
blobs outside the modelled field set. -/
structure CleanRecord where
  timestamp : Option ℤ
  value : Option ℚ
  unit : Option String
  sourceApp : Option String
  metadata : Option JMeta
deriving Repr, DecidableEq

/-- `sanitizeHealthData(dataType, record)`. -/
def sanitizeHealthData (record : JRecord) : CleanRecord :=
  { timestamp := parseIntJ record.timestamp
    value := parseFloatJ record.value
    unit := sanitizeStringJ record.unit
    sourceApp := sanitizeStringJ record.sourceApp
    metadata := record.metadata }

/-! ## The store (`database/init.js` schema) and server state -/

/-- A row of the `devices` table (the columns the modelled handlers read).
`last_sync_timestamp` is `BIGINT DEFAULT 0`; `none` models SQL `NULL`
(a `NaN` binding). -/
structure DeviceRow where
  id : String
  name : String
  type : String
  last_seen : ℤ
  last_sync_timestamp : Option ℤ
  is_active : Bool
deriving Repr, DecidableEq

/-- A row of the `health_data` table (the columns the modelled handlers
read and write). -/
structure HealthRow where
  device_id : String
  data_type : String
  timestamp : Option ℤ
  value : Option ℚ
  unit : Option String
  metadata : Option JMeta
  source_app : Option String
deriving Repr, DecidableEq

/-- A row of the `sync_sessions` table. -/
structure SessionRow where
  id : String
  device_id : String
  sync_type : String
  status : String
  records_synced : ℤ
  start_time : ℤ
  end_time : Option ℤ
  error_message : Option String
deriving Repr, DecidableEq

/-- The embedded store: the three tables the claims touch. -/
structure ServerState where
  devices : List DeviceRow
  health_data : List HealthRow
  sync_sessions : List SessionRow
deriving Repr, DecidableEq

/-- `SELECT ... FROM devices WHERE id = ?` (first match). -/
def getDevice (st : ServerState) (deviceId : String) : Option DeviceRow :=
  st.devices.find? (fun d => d.id = deviceId)

/-- `SELECT ... FROM sync_sessions WHERE id = ?` (first match). -/
def getSession (st : ServerState) (sessionId : String) : Option SessionRow :=
  st.sync_sessions.find? (fun s => s.id = sessionId)

/-- JavaScript `a || b` for an optional string request field: `undefined`
and `""` fall through to the default. -/
def jsOrStr (v : Option String) (d : String) : String :=
  match v with
  | some s => if s = "" then d else s
  | none => d

/-- JavaScript truthiness of an optional string field (`undefined` and `""`
are falsy). -/
def truthyOptStr (v : Option String) : Bool :=
  match v with
  | some s => s ≠ ""
  | none => false

/-! ## Ingestion (`src/server/routes/healthData.js`, `POST /`) -/

/-- `ensureDeviceExists(deviceId, deviceName, deviceType)`: insert the
device row (schema defaults: `last_sync_timestamp` 0, `is_active` 1) if
absent, else update `last_seen` only. -/
def ensureDeviceExists (st : ServerState) (now : ℤ) (deviceId : String)
    (deviceName : Option String) (deviceType : String) : ServerState :=
  match getDevice st deviceId with
  | none =>
      { st with devices := st.devices ++
          [{ id := deviceId
             name := jsOrStr deviceName (deviceType ++ " Device")
             type := deviceType
             last_seen := now
             last_sync_timestamp := some 0
             is_active := true }] }
  | some _ =>
      { st with devices := st.devices.map (fun d =>
          if d.id = deviceId then { d with last_seen := now } else d) }

/-- An entry of the per-record `errors` array: `{index, error}`. -/
structure IngestError where
  index : ℕ
  error : Option String
deriving Repr, DecidableEq

/-- The validation loop of the `POST /` handler, from batch index `i`:
valid records are sanitized and collected, invalid ones produce an
`{index, error}` entry; a failing record never stops the loop. -/
def processRecords (dataType : String) (now : ℤ) :
    ℕ → List JRecord → List CleanRecord × List IngestError
  | _, [] => ([], [])
  | i, r :: rs =>
      let rest := processRecords dataType now (i + 1) rs
      let v := validateHealthData dataType r now
      if v.isValid then (sanitizeHealthData r :: rest.1, rest.2)
      else (rest.1, ⟨i, v.error⟩ :: rest.2)

/-- The `health_data` row written by `insertHealthRecords` for one record. -/
def toHealthRow (deviceId dataType : String) (r : CleanRecord) : HealthRow :=
  { device_id := deviceId
    data_type := dataType
    timestamp := r.timestamp
    value := r.value
    unit := r.unit
    metadata := r.metadata
    source_app := r.sourceApp }

/-- `insertHealthRecords(deviceId, dataType, records)`: one `INSERT` per
record; `insertOk k` tells whether the `k`-th statement of this call
succeeds (a storage failure is logged and skipped, not reported).  Returns
the new store and `insertedCount`. -/
def insertHealthRecords (deviceId dataType : String) (insertOk : ℕ → Bool) :
    ℕ → ServerState → List CleanRecord → ServerState × ℕ
  | _, st, [] => (st, 0)
  | k, st, r :: rs =>
      if insertOk k then
        let st' := { st with
          health_data := st.health_data ++ [toHealthRow deviceId dataType r] }
        let rest := insertHealthRecords deviceId dataType insertOk (k + 1) st' rs
        (rest.1, rest.2 + 1)
      else
        insertHealthRecords deviceId dataType insertOk (k + 1) st rs

/-- The rows `insertHealthRecords` appends, starting at statement index `k`:
the records whose `INSERT` the oracle lets succeed. -/
def insertedRows (deviceId dataType : String) (insertOk : ℕ → Bool) :
    ℕ → List CleanRecord → List HealthRow
  | _, [] => []
  | k, r :: rs =>
      if insertOk k then
        toHealthRow deviceId dataType r :: insertedRows deviceId dataType insertOk (k + 1) rs
      else
        insertedRows deviceId dataType insertOk (k + 1) rs

/-- `updateDeviceLastSync(deviceId, timestamp)`: unconditional
`UPDATE devices SET last_sync_timestamp = ? WHERE id = ?`. -/
def updateDeviceLastSync (st : ServerState) (deviceId : String)
    (ts : Option ℤ) : ServerState :=
  { st with devices := st.devices.map (fun d =>
      if d.id = deviceId then { d with last_sync_timestamp := ts } else d) }

/-- `NaN`-propagating binary `Math.max` (`none` models `NaN`). -/
def optMax : Option ℤ → Option ℤ → Option ℤ
  | some a, some b => some (max a b)
  | _, _ => none

/-- `validRecords.length > 0 ? Math.max(...validRecords.map(r => r.timestamp))
: Date.now()`: the cursor value computed by the `POST /` handler. -/
def maxAcceptedTimestamp (validRecords : List CleanRecord) (now : ℤ) :
    Option ℤ :=
  match validRecords with
  | [] => some now
  | r :: rs => rs.foldl (fun acc cr => optMax acc cr.timestamp) r.timestamp

/-- The body fields of `POST /api/v1/health-data`; `records = none` models a
missing or non-array `records` field. -/
structure IngestRequest where
  deviceId : Option String
  dataType : Option String
  deviceName : Option String
  deviceType : Option String
  records : Option (List JRecord)
deriving Repr, DecidableEq

/-- Response of `POST /api/v1/health-data`: a 400 rejection, or the 200
body `{processed: {total, inserted, errors: errors.length}, errors}`. -/
inductive IngestResponse where
  | badRequest (msg : String)
  | okI (total : ℕ) (inserted : ℕ) (errors : List IngestError)
deriving Repr, DecidableEq

/-- The `POST /api/v1/health-data` handler at wall clock `now` with storage
oracle `insertOk`: field/type/batch-size checks, device upsert, per-record
validation, best-effort insertion, then the unconditional cursor update. -/
def postHealthData (st : ServerState) (now : ℤ) (req : IngestRequest)
    (insertOk : ℕ → Bool) : ServerState × IngestResponse :=
  match req.records with
  | none =>
      (st, .badRequest "Missing required fields: deviceId, dataType, records (array)")
  | some records =>
    if !truthyOptStr req.deviceId || !truthyOptStr req.dataType then
      (st, .badRequest "Missing required fields: deviceId, dataType, records (array)")
    else
      let deviceId := req.deviceId.getD ""
      let dataType := req.dataType.getD ""
      if !(Config.supportedTypes.contains dataType) then
        (st, .badRequest ("Unsupported data type: " ++ dataType))
      else if records.length > Config.maxBatchSize then
        (st, .badRequest "Batch size exceeds maximum allowed (1000)")
      else
        let st1 := ensureDeviceExists st now deviceId req.deviceName
          (jsOrStr req.deviceType "wearos")
        let processed := processRecords dataType now 0 records
        let inserted :=
          if processed.1.length > 0 then
            insertHealthRecords deviceId dataType insertOk 0 st1 processed.1
          else (st1, 0)
        let maxTimestamp := maxAcceptedTimestamp processed.1 now
        let st2 := updateDeviceLastSync inserted.1 deviceId maxTimestamp
        (st2, .okI records.length inserted.2 processed.2)

/-! ## Sync router (`sync.js`, second half of `src/unnamed/part_002`) -/

/-- `validateSyncParams({since, until, limit, offset})`: each parameter, when
present, must parse (`parseInt`) to a number in its range — `since`/`until`
nonnegative, `limit` in `1..maxBatchSize`, `offset` nonnegative. -/
def validateSyncParams (since until_ limit offset : Option String) :
    ValidationResult :=
  let badTs (o : Option String) : Bool :=
    match o with
    | none => false
    | some s =>
        match parseIntString s with
        | none => true
        | some n => n < 0
  let badLimit : Bool :=
    match limit with
    | none => false
    | some s =>
        match parseIntString s with
        | none => true
        | some n => n < 1 || n > (Config.maxBatchSize : ℤ)
  let badOffset : Bool :=
    match offset with
    | none => false
    | some s =>
        match parseIntString s with
        | none => true
        | some n => n < 0
  if badTs since then vErr "Since parameter must be a valid timestamp"
  else if badTs until_ then vErr "Until parameter must be a valid timestamp"
  else if badLimit then vErr "Limit must be between 1 and 1000"
  else if badOffset then vErr "Offset must be a non-negative number"
  else vOk

/-- SQL comparison of a possibly-`NULL` row timestamp against a number:
a `NULL` operand never satisfies the comparison. -/
def rowTsCmp (rt : Option ℤ) (f : ℤ → Bool) : Bool :=
  match rt with
  | some t => f t
  | none => false

/-- The `WHERE` predicate built by `GET /data/:deviceId`: always
`device_id != ?`; `timestamp > ?` when the effective `since` is positive;
`timestamp <= ?` when `until` is supplied; `data_type = ?` when a data-type
filter is supplied. -/
def syncDataPred (deviceId : String) (sinceTimestamp : Option ℤ)
    (untilNum : Option ℤ) (dataTypeF : Option String) (r : HealthRow) : Bool :=
  (r.device_id ≠ deviceId : Bool) &&
  (match sinceTimestamp with
   | some t => if t > 0 then rowTsCmp r.timestamp (fun x => t < x) else true
   | none => true) &&
  (match untilNum with
   | some u => rowTsCmp r.timestamp (fun x => x ≤ u)
   | none => true) &&
  (match dataTypeF with
   | some dt => r.data_type = dt
   | none => true)

/-- Insert `a` into a list ordered by the Boolean relation `le`. -/
def insertSorted {α : Type} (le : α → α → Bool) (a : α) : List α → List α
  | [] => [a]
  | b :: bs => if le a b then a :: b :: bs else b :: insertSorted le a bs

/-- Sort by the Boolean relation `le` (insertion sort); embeds the SQL
`ORDER BY` of the modelled queries. -/
def sortRows {α : Type} (le : α → α → Bool) (l : List α) : List α :=
  l.foldr (insertSorted le) []

/-- `ORDER BY timestamp DESC` order on rows: larger timestamps first,
`NULL` timestamps last. -/
def tsDescLe (a b : HealthRow) : Bool :=
  match a.timestamp, b.timestamp with
  | none, none => true
  | none, some _ => false
  | some _, none => true
  | some x, some y => y ≤ x

/-- Query parameters of `GET /api/v1/sync/data/:deviceId`. -/
structure SyncReadParams where
  since : Option String
  until_ : Option String
  dataType : Option String
  limit : Option String
  offset : Option String
deriving Repr, DecidableEq

/-- Response of `GET /api/v1/sync/data/:deviceId`: 400, 404, or the 200 body
`{data, pagination: {total, limit, offset, hasMore}, lastSyncTimestamp}`. -/
inductive SyncReadResponse where
  | badRequest (msg : String)
  | notFound (msg : String)
  | okS (data : List HealthRow) (total : ℕ) (limit : ℤ) (offset : ℤ)
        (hasMore : Bool) (lastSyncTimestamp : Option ℤ)
deriving Repr, DecidableEq

/-- The `GET /api/v1/sync/data/:deviceId` handler.  It issues only `SELECT`
statements, so the state component of the result is the input state.
The `limit`/`offset` destructuring defaults `1000`/`0` are rendered as the
equivalent decimal strings before `parseInt`. -/
def getSyncData (st : ServerState) (deviceId : String) (p : SyncReadParams) :
    ServerState × SyncReadResponse :=
  let resp : SyncReadResponse :=
    let pv := validateSyncParams p.since p.until_
      (some (p.limit.getD "1000")) (some (p.offset.getD "0"))
    if !pv.isValid then .badRequest (pv.error.getD "")
    else
      match getDevice st deviceId with
      | none => .notFound "Device not found"
      | some device =>
        let sinceTimestamp : Option ℤ :=
          if truthyOptStr p.since then parseIntString (p.since.getD "")
          else device.last_sync_timestamp
        let untilNum : Option ℤ :=
          if truthyOptStr p.until_ then parseIntString (p.until_.getD "")
          else none
        let dataTypeF : Option String :=
          if truthyOptStr p.dataType then p.dataType else none
        if truthyOptStr p.dataType
            && !(Config.supportedTypes.contains (p.dataType.getD "")) then
          .badRequest ("Unsupported data type: " ++ p.dataType.getD "")
        else
          let limitNum : ℤ :=
            match parseIntString (p.limit.getD "1000") with
            | some n => min n (Config.maxBatchSize : ℤ)
            | none => 0  -- unreachable: validateSyncParams accepted the limit
          let offsetNum : ℤ :=
            (parseIntString (p.offset.getD "0")).getD 0
            -- the none arm is unreachable: validateSyncParams accepted it
          let matching := st.health_data.filter
            (syncDataPred deviceId sinceTimestamp untilNum dataTypeF)
          let rows := ((sortRows tsDescLe matching).drop offsetNum.toNat).take
            limitNum.toNat
          let total := matching.length
          .okS rows total limitNum offsetNum
            (offsetNum.toNat + rows.length < total) sinceTimestamp
  (st, resp)

/-- Response of `PUT /api/v1/sync/timestamp/:deviceId`. -/
inductive TimestampResponse where
  | badRequest (msg : String)
  | notFound (msg : String)
  | okT (lastSyncTimestamp : ℤ)
deriving Repr, DecidableEq

/-- The `PUT /api/v1/sync/timestamp/:deviceId` handler: the explicit cursor
write (`SET last_sync_timestamp = ?, last_seen = CURRENT_TIMESTAMP`). -/
def putSyncTimestamp (st : ServerState) (now : ℤ) (deviceId : String)
    (timestamp : JVal) : ServerState × TimestampResponse :=
  if !timestamp.truthy || (parseIntJ timestamp).isNone then
    (st, .badRequest "Valid timestamp is required")
  else
    match parseIntJ timestamp with
    | none => (st, .badRequest "Valid timestamp is required")
    | some timestampNum =>
      match getDevice st deviceId with
      | none => (st, .notFound "Device not found")
      | some _ =>
        ({ st with devices := st.devices.map (fun d =>
            if d.id = deviceId then
              { d with last_sync_timestamp := some timestampNum
                       last_seen := now }
            else d) },
         .okT timestampNum)

/-- Response of `POST /api/v1/sync/complete`. -/
inductive CompleteResponse where
  | badRequest (msg : String)
  | notFound (msg : String)
  | okC (status : String) (recordsSynced : ℤ)
deriving Repr, DecidableEq

/-- JavaScript truthiness of the optional `errorMessage` body field
(`errorMessage ? 'failed' : 'completed'`). -/
def errPresent (e : Option String) : Bool :=
  match e with
  | some s => s ≠ ""
  | none => false

/-- The `POST /api/v1/sync/complete` handler at wall clock `now`:
`recordsSynced` defaults to 0; a session that is not in status `started`
is rejected with a 400 and nothing is written; otherwise the session row
gets its terminal status, `records_synced`, `end_time` and
`error_message || null`. -/
def completeSession (st : ServerState) (now : ℤ) (sessionId : Option String)
    (recordsSynced : Option ℤ) (errorMessage : Option String) :
    ServerState × CompleteResponse :=
  if !truthyOptStr sessionId then
    (st, .badRequest "Session ID is required")
  else
    let sid := sessionId.getD ""
    match getSession st sid with
    | none => (st, .notFound "Sync session not found")
    | some session =>
      if session.status ≠ "started" then
        (st, .badRequest ("Cannot complete session with status: " ++ session.status))
      else
        let status := if errPresent errorMessage then "failed" else "completed"
        let rs := recordsSynced.getD 0
        ({ st with sync_sessions := st.sync_sessions.map (fun s =>
            if s.id = sid then
              { s with status := status
                       records_synced := rs
                       end_time := some now
                       error_message :=
                         if errPresent errorMessage then errorMessage else none }
            else s) },
         .okC status rs)

/-! ## Concrete instances used to evaluate the handlers -/

/-- A batch record with numeric timestamp and value and no optional fields. -/
def numRec (ts v : ℚ) : JRecord := ⟨.num ts, .num v, .undef, none, .undef⟩

/-- A registered watch whose cursor stands at `maxRecordAge`. -/
def watchDevice : DeviceRow :=
  ⟨"w1", "Watch", "wearos", 0, some Config.maxRecordAge, true⟩

/-- A registered phone. -/
def phoneDevice : DeviceRow := ⟨"p1", "Phone", "ios", 0, some 0, true⟩

/-- A store holding only the watch. -/
def exState : ServerState := ⟨[watchDevice], [], []⟩

/-- An ingestion request from the watch: one valid heart-rate record with
timestamp 1. -/
def exIngest : IngestRequest :=
  ⟨some "w1", some "heart_rate", none, none, some [numRec 1 72]⟩

/-- A storage oracle under which every `INSERT` succeeds. -/
def allOk : ℕ → Bool := fun _ => true

/-- A storage oracle under which every `INSERT` fails. -/
def allFail : ℕ → Bool := fun _ => false

/-- An ingestion request whose batch exceeds `maxBatchSize`. -/
def bigIngest : IngestRequest :=
  ⟨some "w1", some "steps", none, none, some (List.replicate 1001 (numRec 1 5))⟩

/-- A stored heart-rate record of the watch. -/
def watchRow : HealthRow := ⟨"w1", "heart_rate", some 10, some 70, none, none, none⟩

/-- A stored steps record of the phone. -/
def phoneRow : HealthRow := ⟨"p1", "steps", some 20, some 5, none, none, none⟩

/-- A store holding both devices and one record of each. -/
def twoDevState : ServerState := ⟨[watchDevice, phoneDevice], [watchRow, phoneRow], []⟩

/-- Sync-read parameters `since=0` with everything else defaulted. -/
def exReadParams : SyncReadParams := ⟨some "0", none, none, none, none⟩

/-- A sync session in status `started`. -/
def startedSession : SessionRow := ⟨"s1", "w1", "http", "started", 0, 5, none, none⟩

/-- A store holding the watch and one started session. -/
def sessionState : ServerState := ⟨[watchDevice], [], [startedSession]⟩

/-- A steps record carrying the in-range value 0 and a fresh timestamp. -/
def stepsZeroRecord : JRecord := numRec 1 0

/-- A 256-character string: 254 `'a'`s, a space, then `'b'`.  Sanitizing it
truncates right after the space, so a second pass trims further. -/
def truncWsStr : String := ⟨List.replicate 254 'a' ++ [' ', 'b']⟩

/-! ## Helper lemmas -/

/-- `find?` of a keyed row list after a `WHERE key = id` update: the found
row, updated. -/
theorem find?_update_of_key {α : Type} (key : α → String) (id : String)
    (upd : α → α) (hk : ∀ a, key (upd a) = key a) (l : List α) :
    (l.map (fun a => if key a = id then upd a else a)).find?
        (fun a => key a = id)
      = (l.find? (fun a => key a = id)).map upd := by
  induction l with
  | nil => rfl
  | cons a t ih =>
    by_cases h : key a = id
    · simp [h, hk]
    · simp [h, ih]

/-- `ensureDeviceExists` leaves a row for the device in the store. -/
theorem getDevice_ensureDeviceExists (st : ServerState) (now : ℤ)
    (deviceId : String) (deviceName : Option String) (deviceType : String) :
    ∃ d, getDevice (ensureDeviceExists st now deviceId deviceName deviceType)
      deviceId = some d := by
  unfold ensureDeviceExists
  cases h : getDevice st deviceId with
  | none =>
    refine ⟨{ id := deviceId
              name := jsOrStr deviceName (deviceType ++ " Device")
              type := deviceType
              last_seen := now
              last_sync_timestamp := some 0
              is_active := true }, ?_⟩
    unfold getDevice at h ⊢
    simp [List.find?_append, h]
  | some d =>
    refine ⟨{ d with last_seen := now }, ?_⟩
    unfold getDevice at h ⊢
    simp [h, find?_update_of_key (fun x => DeviceRow.id x) deviceId
      (fun x => { x with last_seen := now }) (fun _ => rfl)]

/-- `ensureDeviceExists` writes only the `devices` table. -/
theorem ensureDeviceExists_frame (st : ServerState) (now : ℤ)
    (deviceId : String) (deviceName : Option String) (deviceType : String) :
    (ensureDeviceExists st now deviceId deviceName deviceType).health_data
        = st.health_data ∧
    (ensureDeviceExists st now deviceId deviceName deviceType).sync_sessions
        = st.sync_sessions := by
  unfold ensureDeviceExists
  cases h : getDevice st deviceId <;> simp

/-- `updateDeviceLastSync` rewrites the device's cursor to the given value. -/
theorem getDevice_updateDeviceLastSync (st : ServerState) (deviceId : String)
    (ts : Option ℤ) :
    getDevice (updateDeviceLastSync st deviceId ts) deviceId
      = (getDevice st deviceId).map
          (fun d => { d with last_sync_timestamp := ts }) := by
  unfold updateDeviceLastSync getDevice
  exact find?_update_of_key (fun x => DeviceRow.id x) deviceId
    (fun d => { d with last_sync_timestamp := ts }) (fun _ => rfl) st.devices

/-- `insertHealthRecords` appends exactly the oracle-approved rows and
counts them. -/
theorem insertHealthRecords_eq (deviceId dataType : String)
    (insertOk : ℕ → Bool) :
    ∀ (rs : List CleanRecord) (k : ℕ) (st : ServerState),
    insertHealthRecords deviceId dataType insertOk k st rs
      = ({ st with health_data :=
            st.health_data ++ insertedRows deviceId dataType insertOk k rs },
         (insertedRows deviceId dataType insertOk k rs).length) := by
  intro rs
  induction rs with
  | nil => intro k st; simp [insertHealthRecords, insertedRows]
  | cons r t ih =>
    intro k st
    by_cases h : insertOk k
    · simp [insertHealthRecords, insertedRows, h, ih]
    · simp [insertHealthRecords, insertedRows, h, ih]

/-- With the all-success oracle every record is inserted. -/
theorem insertedRows_allOk (deviceId dataType : String) :
    ∀ (rs : List CleanRecord) (k : ℕ),
    insertedRows deviceId dataType allOk k rs
      = rs.map (toHealthRow deviceId dataType) := by
  intro rs
  induction rs with
  | nil => intro k; rfl
  | cons r t ih => intro k; simp [insertedRows, allOk, ih]

/-- Every appended row comes from one of the call's records. -/
theorem mem_insertedRows (deviceId dataType : String) (insertOk : ℕ → Bool) :
    ∀ (rs : List CleanRecord) (k : ℕ) (row : HealthRow),
    row ∈ insertedRows deviceId dataType insertOk k rs →
    ∃ c ∈ rs, row = toHealthRow deviceId dataType c := by
  intro rs
  induction rs with
  | nil => intro k row h; simp [insertedRows] at h
  | cons r t ih =>
    intro k row h
    by_cases hk : insertOk k
    · simp [insertedRows, hk] at h
      rcases h with h | h
      · exact ⟨r, by simp, h⟩
      · rcases ih (k + 1) row h with ⟨c, hc, hrow⟩
        exact ⟨c, by simp [hc], hrow⟩
    · simp [insertedRows, hk] at h
      rcases ih (k + 1) row h with ⟨c, hc, hrow⟩
      exact ⟨c, by simp [hc], hrow⟩

/-- The validation loop partitions the batch: valid plus failed equals
submitted. -/
theorem processRecords_length (dataType : String) (now : ℤ) :
    ∀ (rs : List JRecord) (i : ℕ),
    ((processRecords dataType now i rs).1).length
      + ((processRecords dataType now i rs).2).length = rs.length := by
  intro rs
  induction rs with
  | nil => intro i; rfl
  | cons r t ih =>
    intro i
    by_cases h : (validateHealthData dataType r now).isValid
    · simp [processRecords, h]
      have := ih (i + 1)
      omega
    · simp [processRecords, h]
      have := ih (i + 1)
      omega

/-- Every collected valid record is the sanitized form of a batch record
that passed validation. -/
theorem mem_processRecords_fst (dataType : String) (now : ℤ) :
    ∀ (rs : List JRecord) (i : ℕ) (c : CleanRecord),
    c ∈ (processRecords dataType now i rs).1 →
    ∃ r ∈ rs, (validateHealthData dataType r now).isValid = true
      ∧ c = sanitizeHealthData r := by
  intro rs
  induction rs with
  | nil => intro i c h; simp [processRecords] at h
  | cons r t ih =>
    intro i c h
    by_cases hv : (validateHealthData dataType r now).isValid
    · simp [processRecords, hv] at h
      rcases h with h | h
      · exact ⟨r, by simp, hv, h⟩
      · rcases ih (i + 1) c h with ⟨r', hr', hv', hc⟩
        exact ⟨r', by simp [hr'], hv', hc⟩
    · simp [processRecords, hv] at h
      rcases ih (i + 1) c h with ⟨r', hr', hv', hc⟩
      exact ⟨r', by simp [hr'], hv', hc⟩

/-- A record that validates has a parsed, nonnegative timestamp inside the
freshness window. -/
theorem validateHealthData_isValid_window (dataType : String) (r : JRecord)
    (now : ℤ) (h : (validateHealthData dataType r now).isValid = true) :
    ∃ ts, parseIntJ r.timestamp = some ts ∧ 0 ≤ ts
      ∧ now - ts ≤ Config.maxRecordAge ∧ ts ≤ now + gracePeriodMs := by
  unfold validateHealthData at h
  split at h
  · simp [vErr] at h
  · split at h
    · simp [vErr] at h
    · rename_i ts hts
      split at h
      · simp [vErr] at h
      · split at h
        · simp [vErr] at h
        · split at h
          · simp [vErr] at h
          · rename_i h0 hage hfut
            exact ⟨ts, hts, by omega, by omega, by omega⟩

/-- Inserting into a sorted list is a permutation of consing. -/
theorem insertSorted_perm {α : Type} (le : α → α → Bool) (a : α) :
    ∀ l : List α, (insertSorted le a l).Perm (a :: l) := by
  intro l
  induction l with
  | nil => exact List.Perm.refl _
  | cons b t ih =>
    by_cases h : le a b
    · simp [insertSorted, h]
    · simp only [insertSorted, h, Bool.false_eq_true, if_false]
      exact ((ih.cons b).trans (List.Perm.swap a b t))

/-- The embedded `ORDER BY` is a permutation of its input. -/
theorem sortRows_perm {α : Type} (le : α → α → Bool) :
    ∀ l : List α, (sortRows le l).Perm l := by
  intro l
  induction l with
  | nil => exact List.Perm.refl _
  | cons a t ih =>
    exact (insertSorted_perm le a (sortRows le t)).trans (ih.cons a)

/-- `trim()` is a left `dropWhile` followed by a right `rdropWhile`. -/
theorem trimChars_eq_rdropWhile (cs : List Char) :
    trimChars cs = (cs.dropWhile jsSpace).rdropWhile jsSpace := rfl

/-- A prefix of a list with no leading `p`-run has no leading `p`-run. -/
theorem dropWhile_eq_self_of_prefix {α : Type} {p : α → Bool} :
    ∀ {l₁ l₂ : List α}, l₁ <+: l₂ → l₂.dropWhile p = l₂ →
    l₁.dropWhile p = l₁ := by
  intro l₁ l₂ hpre h₂
  cases l₁ with
  | nil => rfl
  | cons a t =>
    rcases hpre with ⟨r, hr⟩
    by_cases hpa : p a
    · exfalso
      rw [← hr, List.cons_append, List.dropWhile_cons, if_pos hpa] at h₂
      have hle := List.IsSuffix.length_le (List.dropWhile_suffix (l := t ++ r) p)
      have := congrArg List.length h₂
      rw [List.length_cons] at this
      omega
    · rw [List.dropWhile_cons, if_neg hpa]

/-- Every character surviving `sanitizeString` survived the filter. -/
theorem sanitizeChars_subset (cs : List Char) :
    sanitizeChars cs ⊆ cs.filter (fun c => !harmfulChar c) := by
  intro c hc
  have h1 := List.take_subset 255 (trimChars (cs.filter (fun c => !harmfulChar c))) hc
  rw [trimChars_eq_rdropWhile] at h1
  have h2 := (List.rdropWhile_prefix jsSpace
    ((cs.filter (fun c => !harmfulChar c)).dropWhile jsSpace)).subset h1
  exact (List.dropWhile_suffix jsSpace).subset h2

/-- `sanitizeString` output never exceeds 255 characters. -/
theorem sanitizeChars_length_le (cs : List Char) :
    (sanitizeChars cs).length ≤ 255 := by
  unfold sanitizeChars
  simp [List.length_take]

/-- `sanitizeString` output has no leading whitespace. -/
theorem sanitizeChars_dropWhile (cs : List Char) :
    (sanitizeChars cs).dropWhile jsSpace = sanitizeChars cs := by
  unfold sanitizeChars
  rw [trimChars_eq_rdropWhile]
  exact dropWhile_eq_self_of_prefix
    ((List.take_prefix 255 _).trans (List.rdropWhile_prefix jsSpace _))
    (List.dropWhile_idempotent jsSpace _)

/-! ## Claim C5: heart-rate bounds -/

/-- C5: for a heart-rate record whose timestamp is present, parses, and
passes the freshness checks, validation succeeds iff the numeric value `v`
satisfies `30 ≤ v ≤ 220`; in particular 30 and 220 are accepted while 29
and 221 are rejected with the per-record range error. -/
theorem heartRate_accepted_iff_in_bounds :
    (∀ (v : ℚ) (r : JRecord) (now ts : ℤ), r.value = .num v →
      r.timestamp.truthy = true → parseIntJ r.timestamp = some ts →
      0 ≤ ts → now - ts ≤ Config.maxRecordAge → ts ≤ now + gracePeriodMs →
      ((validateHealthData "heart_rate" r now).isValid = true ↔
        30 ≤ v ∧ v ≤ 220)) ∧
    (validateHealthData "heart_rate" (numRec 1 30) 0).isValid = true ∧
    (validateHealthData "heart_rate" (numRec 1 220) 0).isValid = true ∧
    validateHealthData "heart_rate" (numRec 1 29) 0
      = vErr "Heart rate must be between 30 and 220 bpm" ∧
    validateHealthData "heart_rate" (numRec 1 221) 0
      = vErr "Heart rate must be between 30 and 220 bpm" := by
  refine ⟨?_, by decide, by decide, by decide, by decide⟩
  intro v r now ts hv hts hparse h0 hage hfut
  unfold validateHealthData
  rw [hts, hv, hparse]
  by_cases hv0 : v = 0
  · subst hv0
    simp [JVal.truthy, vErr]
  · simp only [JVal.truthy, ne_eq, hv0]
    rw [if_neg (by simp [hv0]), if_neg (by omega), if_neg (by omega),
      if_neg (by omega)]
    unfold validateValueByType
    simp only [parseFloatJ, outOfRange, Config.heartRateMin, Config.heartRateMax]
    by_cases hlo : v < 30
    · rw [if_pos (by simp [hlo])]
      simp [vErr]
      intro h
      linarith
    · by_cases hhi : v > 220
      · rw [if_pos (by simp [hhi])]
        simp [vErr]
        intro h
        linarith
      · rw [if_neg (by simp [hlo, hhi])]
        simp [vOk]
        exact ⟨by linarith, by linarith⟩

/-- C5 witness: the bound equivalence applied to a concrete in-range
record (heart rate 72 at timestamp 5, wall clock 0). -/
theorem heartRate_accepted_iff_in_bounds_witness :
    (validateHealthData "heart_rate" (numRec 5 72) 0).isValid = true ↔
      (30 : ℚ) ≤ 72 ∧ (72 : ℚ) ≤ 220 :=
  heartRate_accepted_iff_in_bounds.1 72 (numRec 5 72) 0 5 rfl (by decide)
    (by decide) (by decide) (by decide) (by decide)

/-! ## Claim C4: steps value 0 -/

/-- C4: a steps record carrying the value 0 with a fresh, valid timestamp is
rejected by the required-fields truthiness check (`!record.value` is true
for the number 0), even though the domain check itself and the configured
range `steps: {min: 0}` accept 0. -/
theorem steps_zero_rejected_by_required_fields :
    validateHealthData "steps" stepsZeroRecord 0
        = vErr "Missing required fields: timestamp and value" ∧
    validateValueByType "steps" (.num 0) JMeta.empty = vOk ∧
    Config.stepsMin = 0 ∧
    (validateHealthData "steps" (numRec 1 1) 0).isValid = true := by
  refine ⟨by decide, by decide, by decide, by decide⟩

/-! ## Claim C10: sanitizer idempotence -/

set_option maxRecDepth 4000 in
/-- C10 counterexample: sanitizing 254 `'a'`s, a space and a `'b'` truncates
to 254 `'a'`s plus a trailing space, which a second pass trims, so
`sanitizeString` is not idempotent on this string. -/
theorem sanitizeString_not_idempotent :
    sanitizeString (sanitizeString truncWsStr) ≠ sanitizeString truncWsStr := by
  decide

/-- C10 amended: `sanitizeString` is idempotent on every string whose
sanitized form does not end in whitespace — one pass already removes every
markup character and all leading whitespace, and only the 255-character
truncation can expose new trailing whitespace. -/
theorem sanitizeString_idempotent_of_no_trailing_space (s : String)
    (h : ((sanitizeString s).data.getLast?.elim true (fun c => !jsSpace c))
      = true) :
    sanitizeString (sanitizeString s) = sanitizeString s := by
  unfold sanitizeString at h ⊢
  congr 1
  have hfilter : (sanitizeChars s.data).filter (fun c => !harmfulChar c)
      = sanitizeChars s.data := by
    refine List.filter_eq_self.mpr ?_
    intro c hc
    have := sanitizeChars_subset s.data hc
    exact (List.mem_filter.mp this).2
  have hdrop : (sanitizeChars s.data).dropWhile jsSpace = sanitizeChars s.data :=
    sanitizeChars_dropWhile s.data
  have hrdrop : (sanitizeChars s.data).rdropWhile jsSpace
      = sanitizeChars s.data := by
    refine List.rdropWhile_eq_self_iff.mpr ?_
    intro hl
    have hlast := List.getLast?_eq_getLast (sanitizeChars s.data) hl
    rw [hlast] at h
    simp only [Option.elim] at h
    simpa using h
  calc sanitizeChars (sanitizeChars s.data)
      = (trimChars ((sanitizeChars s.data).filter
          (fun c => !harmfulChar c))).take 255 := rfl
    _ = (trimChars (sanitizeChars s.data)).take 255 := by rw [hfilter]
    _ = (((sanitizeChars s.data).dropWhile jsSpace).rdropWhile jsSpace).take 255 := by
          rw [trimChars_eq_rdropWhile]
    _ = ((sanitizeChars s.data).rdropWhile jsSpace).take 255 := by rw [hdrop]
    _ = (sanitizeChars s.data).take 255 := by rw [hrdrop]
    _ = sanitizeChars s.data := List.take_of_length_le (sanitizeChars_length_le s.data)

/-- C10 witness: the amended idempotence applied to a concrete string whose
sanitized form ends in a non-space character. -/
theorem sanitizeString_idempotent_witness :
    sanitizeString (sanitizeString "a<b c") = sanitizeString "a<b c" :=
  sanitizeString_idempotent_of_no_trailing_space "a<b c" (by rfl)

/-! ## Claim C3: freshness window -/

/-- C3: a record is persisted by ingestion only if its timestamp lies in
`[now - maxRecordAge, now + 5min]`; a parsed timestamp older than
`maxRecordAge` or more than 5 minutes in the future always fails
validation, for every data type and irrespective of the value. -/
theorem record_persisted_only_if_fresh :
    (∀ (st : ServerState) (now : ℤ) (req : IngestRequest)
      (insertOk : ℕ → Bool) (row : HealthRow),
      row ∈ (postHealthData st now req insertOk).1.health_data →
      row ∈ st.health_data ∨ ∃ ts, row.timestamp = some ts ∧
        now - ts ≤ Config.maxRecordAge ∧ ts ≤ now + gracePeriodMs) ∧
    (∀ (dataType : String) (r : JRecord) (now ts : ℤ),
      parseIntJ r.timestamp = some ts → now - ts > Config.maxRecordAge →
      (validateHealthData dataType r now).isValid = false) ∧
    (∀ (dataType : String) (r : JRecord) (now ts : ℤ),
      parseIntJ r.timestamp = some ts → ts > now + gracePeriodMs →
      (validateHealthData dataType r now).isValid = false) := by
  refine ⟨?_, ?_, ?_⟩
  · intro st now req insertOk row hmem
    simp only [postHealthData] at hmem
    split at hmem
    · exact Or.inl hmem
    · split at hmem
      · exact Or.inl hmem
      · split at hmem
        · exact Or.inl hmem
        · split at hmem
          · exact Or.inl hmem
          · rename_i records hne hsupp hsize
            simp only [updateDeviceLastSync] at hmem
            split at hmem
            · rw [insertHealthRecords_eq] at hmem
              simp only at hmem
              rw [(ensureDeviceExists_frame st now _ req.deviceName _).1] at hmem
              rcases List.mem_append.mp hmem with h | h
              · exact Or.inl h
              · rcases mem_insertedRows _ _ insertOk _ 0 row h with ⟨c, hc, hrow⟩
                rcases mem_processRecords_fst _ now _ 0 c hc with ⟨r, _, hv, hcr⟩
                rcases validateHealthData_isValid_window _ r now hv
                  with ⟨ts, hts, _, hage, hfut⟩
                refine Or.inr ⟨ts, ?_, hage, hfut⟩
                rw [hrow, hcr]
                simpa [toHealthRow, sanitizeHealthData] using hts
            · rw [(ensureDeviceExists_frame st now _ req.deviceName _).1] at hmem
              exact Or.inl hmem
  · intro dataType r now ts hparse hage
    unfold validateHealthData
    split
    · rfl
    · rw [hparse]
      split
      · rfl
      · rename_i ts2 heq
        injection heq with he
        subst he
        by_cases h0 : ts < 0
        · rw [if_pos h0]
          rfl
        · rw [if_neg h0, if_pos hage]
          rfl
  · intro dataType r now ts hparse hfut
    unfold validateHealthData
    split
    · rfl
    · rw [hparse]
      split
      · rfl
      · rename_i ts2 heq
        injection heq with he
        subst he
        by_cases h0 : ts < 0
        · rw [if_pos h0]
          rfl
        · by_cases hage : now - ts > Config.maxRecordAge
          · rw [if_neg h0, if_pos hage]
            rfl
          · rw [if_neg h0, if_neg hage, if_pos hfut]
            rfl

/-- C3 witness: the max-age rejection applied to a concrete stale steps
record (timestamp 1, wall clock one past the age limit). -/
theorem record_persisted_only_if_fresh_witness :
    (validateHealthData "steps" (numRec 1 5) (Config.maxRecordAge + 2)).isValid
      = false :=
  record_persisted_only_if_fresh.2.1 "steps" (numRec 1 5)
    (Config.maxRecordAge + 2) 1 (by decide) (by decide)

/-! ## Claim C1: cursor monotonicity -/

/-- C1 counterexample: ingesting a valid heart-rate record with timestamp 1
into a store whose watch cursor stands at `maxRecordAge` rewrites the cursor
to 1, strictly below its previous value — the cursor is rolled back. -/
theorem ingestion_rolls_cursor_back :
    (getDevice exState "w1").map (fun d => d.last_sync_timestamp)
        = some (some Config.maxRecordAge) ∧
    (getDevice (postHealthData exState Config.maxRecordAge exIngest allOk).1
        "w1").map (fun d => d.last_sync_timestamp) = some (some 1) ∧
    (1 : ℤ) < Config.maxRecordAge := by
  refine ⟨by decide, by decide, by decide⟩

/-- C1 amended: after any ingestion call that passes the request-level
checks, the device's stored cursor equals the maximum accepted timestamp of
the batch (wall-clock `now` when nothing was accepted), irrespective of —
and possibly below — its previous value. -/
theorem ingestion_sets_cursor_to_batch_max
    (st : ServerState) (now : ℤ) (req : IngestRequest) (insertOk : ℕ → Bool)
    (did dt : String) (rs : List JRecord)
    (hdid : req.deviceId = some did) (hdne : did ≠ "")
    (hdt : req.dataType = some dt) (htne : dt ≠ "")
    (hsupp : Config.supportedTypes.contains dt = true)
    (hrecs : req.records = some rs)
    (hsize : rs.length ≤ Config.maxBatchSize) :
    (getDevice (postHealthData st now req insertOk).1 did).map
        (fun d => d.last_sync_timestamp)
      = some (maxAcceptedTimestamp (processRecords dt now 0 rs).1 now) := by
  simp only [postHealthData, hrecs, hdid, hdt]
  rw [if_neg (by simp [truthyOptStr, hdne, htne])]
  simp only [Option.getD_some]
  rw [if_neg (by simp only [hsupp]; decide), if_neg (by omega)]
  rw [getDevice_updateDeviceLastSync]
  have hdev : ∃ d, getDevice
      (if (processRecords dt now 0 rs).1.length > 0 then
        insertHealthRecords did dt insertOk 0
          (ensureDeviceExists st now did req.deviceName
            (jsOrStr req.deviceType "wearos")) (processRecords dt now 0 rs).1
      else (ensureDeviceExists st now did req.deviceName
            (jsOrStr req.deviceType "wearos"), 0)).1 did = some d := by
    split
    · rw [insertHealthRecords_eq]
      exact getDevice_ensureDeviceExists st now did req.deviceName _
    · exact getDevice_ensureDeviceExists st now did req.deviceName _
  rcases hdev with ⟨d, hd⟩
  rw [hd]
  rfl

/-- C1 witness: the amended cursor equation applied to the concrete
roll-back run of the counterexample state. -/
theorem ingestion_sets_cursor_to_batch_max_witness :
    (getDevice (postHealthData exState Config.maxRecordAge exIngest allOk).1
        "w1").map (fun d => d.last_sync_timestamp)
      = some (maxAcceptedTimestamp
          (processRecords "heart_rate" Config.maxRecordAge 0 [numRec 1 72]).1
          Config.maxRecordAge) :=
  ingestion_sets_cursor_to_batch_max exState Config.maxRecordAge exIngest
    allOk "w1" "heart_rate" [numRec 1 72] rfl (by decide) rfl (by decide)
    (by decide) rfl (by decide)

/-! ## Claim C2: batch accounting -/

/-- C2 counterexample: with one valid record whose storage `INSERT` fails,
the response reports `total = 1`, `inserted = 0` and an empty `errors`
array, so `inserted + len(errors) ≠ total` — the storage failure is only
logged, never reported. -/
theorem storage_failure_breaks_batch_accounting :
    (postHealthData exState Config.maxRecordAge exIngest allFail).2
        = .okI 1 0 [] ∧
    ¬ (0 + (List.length ([] : List IngestError)) = 1) := by
  refine ⟨by decide, by decide⟩

/-- C2 amended: whenever every storage-level insertion succeeds, the
ingestion response satisfies `inserted + len(errors) = total`;
a storage-level failure reduces `inserted` without an `errors` entry. -/
theorem inserted_plus_errors_eq_total_when_storage_ok
    (st : ServerState) (now : ℤ) (req : IngestRequest)
    (did dt : String) (rs : List JRecord)
    (hdid : req.deviceId = some did) (hdne : did ≠ "")
    (hdt : req.dataType = some dt) (htne : dt ≠ "")
    (hsupp : Config.supportedTypes.contains dt = true)
    (hrecs : req.records = some rs)
    (hsize : rs.length ≤ Config.maxBatchSize) :
    ∃ inserted errs,
      (postHealthData st now req allOk).2 = .okI rs.length inserted errs ∧
      inserted + errs.length = rs.length := by
  simp only [postHealthData, hrecs, hdid, hdt]
  rw [if_neg (by simp [truthyOptStr, hdne, htne])]
  simp only [Option.getD_some]
  rw [if_neg (by simp only [hsupp]; decide), if_neg (by omega)]
  refine ⟨_, (processRecords dt now 0 rs).2, rfl, ?_⟩
  have hlen := processRecords_length dt now rs 0
  split
  · rw [insertHealthRecords_eq]
    simp only [insertedRows_allOk, List.length_map]
    omega
  · simp only
    omega

/-- C2 witness: the accounting equation applied to the concrete
heart-rate batch with an all-success storage oracle. -/
theorem inserted_plus_errors_eq_total_witness :
    ∃ inserted errs,
      (postHealthData exState Config.maxRecordAge exIngest allOk).2
        = .okI (List.length [numRec 1 72]) inserted errs ∧
      inserted + errs.length = (List.length [numRec 1 72]) :=
  inserted_plus_errors_eq_total_when_storage_ok exState Config.maxRecordAge
    exIngest "w1" "heart_rate" [numRec 1 72] rfl (by decide) rfl (by decide)
    (by decide) rfl (by decide)

/-! ## Claim C9: oversized batch -/

/-- C9: a batch longer than `maxBatchSize` is rejected with a 400 before any
persistence — the store (devices, records, cursors, sessions) is exactly the
input store. -/
theorem oversized_batch_rejected_without_persistence
    (st : ServerState) (now : ℤ) (req : IngestRequest) (insertOk : ℕ → Bool)
    (rs : List JRecord) (hrecs : req.records = some rs)
    (hsize : rs.length > Config.maxBatchSize) :
    (postHealthData st now req insertOk).1 = st ∧
    ∃ msg, (postHealthData st now req insertOk).2 = .badRequest msg := by
  have hpair : ∃ msg,
      postHealthData st now req insertOk = (st, .badRequest msg) := by
    simp only [postHealthData, hrecs]
    by_cases h1 : (!truthyOptStr req.deviceId || !truthyOptStr req.dataType) = true
    · rw [if_pos h1]
      exact ⟨_, rfl⟩
    · rw [if_neg h1]
      by_cases h2 :
          (!Config.supportedTypes.contains (req.dataType.getD "")) = true
      · rw [if_pos h2]
        exact ⟨_, rfl⟩
      · rw [if_neg h2, if_pos hsize]
        exact ⟨_, rfl⟩
  rcases hpair with ⟨msg, h⟩
  exact ⟨by rw [h], msg, by rw [h]⟩

/-- C9 witness: a 1001-record batch against the concrete store leaves the
store untouched and yields a 400. -/
theorem oversized_batch_rejected_witness :
    (postHealthData exState 0 bigIngest allOk).1 = exState ∧
    ∃ msg, (postHealthData exState 0 bigIngest allOk).2 = .badRequest msg :=
  oversized_batch_rejected_without_persistence exState 0 bigIngest allOk
    (List.replicate 1001 (numRec 1 5)) rfl
    (by rw [List.length_replicate]; decide)

/-! ## Claim C6: sync reads exclude the requester -/

/-- C6: whatever combination of `since`, `until`, `dataType`, `limit` and
`offset` is supplied, no record returned by a sync read for device `D`
carries `deviceId = D` — the `device_id != ?` condition is always part of
the query. -/
theorem sync_read_excludes_requesting_device
    (st : ServerState) (deviceId : String) (p : SyncReadParams)
    (data : List HealthRow) (total : ℕ) (l o : ℤ) (hm : Bool)
    (lst : Option ℤ)
    (hok : (getSyncData st deviceId p).2 = .okS data total l o hm lst) :
    ∀ r ∈ data, r.device_id ≠ deviceId := by
  intro r hr
  simp only [getSyncData] at hok
  split at hok
  · exact absurd hok (by simp)
  · split at hok
    · exact absurd hok (by simp)
    · split at hok
      · exact absurd hok (by simp)
      · rename_i device hdev hdt
        rw [SyncReadResponse.okS.injEq] at hok
        rcases hok with ⟨hdata, -, -, -, -, -⟩
        rw [← hdata] at hr
        have h1 := List.take_subset _ _ hr
        have h2 := List.drop_subset _ _ h1
        have h3 := (sortRows_perm tsDescLe _).mem_iff.mp h2
        have h4 := (List.mem_filter.mp h3).2
        simp only [syncDataPred, Bool.and_eq_true] at h4
        exact of_decide_eq_true h4.1.1.1

/-- C6 witness: the exclusion applied to the concrete two-device store,
whose sync read for the phone returns exactly the watch's record. -/
theorem sync_read_excludes_requesting_device_witness :
    watchRow.device_id ≠ "p1" :=
  sync_read_excludes_requesting_device twoDevState "p1" exReadParams
    [watchRow] 1 1000 0 false (some 0) (by decide) watchRow (by simp)

/-! ## Claim C7: sync reads are pure -/

/-- C7: a sync read leaves the store — device rows, cursor included, and
health records — exactly as it found them, and repeating the read returns
the same result; the cursor is written only by the separate
`PUT /timestamp` operation (`putSyncTimestamp`). -/
theorem sync_read_changes_nothing
    (st : ServerState) (deviceId : String) (p : SyncReadParams) :
    (getSyncData st deviceId p).1 = st ∧
    getDevice (getSyncData st deviceId p).1 deviceId = getDevice st deviceId ∧
    (getSyncData st deviceId p).1.health_data = st.health_data ∧
    getSyncData ((getSyncData st deviceId p).1) deviceId p
      = getSyncData st deviceId p :=
  ⟨rfl, rfl, rfl, rfl⟩

/-! ## Claim C8: session terminal states -/

/-- C8: completing a `started` session sets it to `completed` (no error
message) or `failed` (error message present), recording `records_synced`,
`end_time` and the message; completing a session in any other status
returns a 400 and leaves the whole store — in particular the session's
status, `records_synced`, `end_time` and `error_message` — unchanged. -/
theorem complete_session_terminal_once
    (st : ServerState) (now : ℤ) (sid : String) (rs : Option ℤ)
    (em : Option String) (s₀ : SessionRow)
    (hfind : getSession st sid = some s₀) (hne : sid ≠ "") :
    (s₀.status = "started" →
      getSession (completeSession st now (some sid) rs em).1 sid
          = some { s₀ with
              status := if errPresent em then "failed" else "completed"
              records_synced := rs.getD 0
              end_time := some now
              error_message := if errPresent em then em else none } ∧
      (completeSession st now (some sid) rs em).2
          = .okC (if errPresent em then "failed" else "completed") (rs.getD 0)) ∧
    (s₀.status ≠ "started" →
      (completeSession st now (some sid) rs em).1 = st ∧
      (completeSession st now (some sid) rs em).2
          = .badRequest ("Cannot complete session with status: " ++ s₀.status)) := by
  constructor
  · intro hstat
    simp only [completeSession, truthyOptStr, hne, ne_eq, not_false_eq_true,
      decide_True, Bool.not_true, Bool.false_eq_true, if_false,
      Option.getD_some, hfind]
    rw [if_neg (by simp [hstat])]
    constructor
    · unfold getSession
      dsimp only
      rw [find?_update_of_key (fun x => SessionRow.id x) sid
        (fun s => { s with
          status := if errPresent em then "failed" else "completed"
          records_synced := rs.getD 0
          end_time := some now
          error_message := if errPresent em then em else none })
        (fun _ => rfl) st.sync_sessions]
      simp only [getSession] at hfind
      rw [hfind]
      rfl
    · rfl
  · intro hstat
    simp only [completeSession, truthyOptStr, hne, ne_eq, not_false_eq_true,
      decide_True, Bool.not_true, Bool.false_eq_true, if_false,
      Option.getD_some, hfind]
    rw [if_pos (by simp [hstat])]
    exact ⟨rfl, rfl⟩

/-- C8 witness: completing the concrete started session without an error
message yields status `completed` with the supplied counters recorded. -/
theorem complete_session_terminal_once_witness :
    getSession (completeSession sessionState 99 (some "s1") (some 7) none).1
        "s1"
      = some { startedSession with
          status := "completed"
          records_synced := 7
          end_time := some 99
          error_message := none } ∧
    (completeSession sessionState 99 (some "s1") (some 7) none).2
      = .okC "completed" 7 :=
  (complete_session_terminal_once sessionState 99 "s1" (some 7) none
    startedSession (by decide) (by decide)).1 rfl

end GalaxySync
